import Mathlib

set_option maxRecDepth 16384

/-!
Shallow embedding of the Draft Persistence & Versioning Core of the
ai-blog-assistant backend (`backend/app/services/content_service.py`,
`backend/app/services/autosave_service.py`, `backend/app/models/content.py`),
together with theorems settling the frozen claims about it.

Conventions of the embedding:
* SQLAlchemy rows become Lean structures; nullable text columns become
  `Option String`; timestamps become `Nat` (only ordering and equality of
  timestamps matter to the code under study).
* Python truthiness on strings/options is modelled explicitly: `None` and
  `""` are falsy, every other string is truthy.
* The per-document version table is a `List PostVersion` in insertion
  order; `ORDER BY version_number DESC LIMIT 1` becomes a fold computing
  the maximum.
* `db.commit()` touches `updated_at` (an `onupdate=func.now()` column)
  only when the flush emits an UPDATE; SQLAlchemy computes attribute
  history with an equality comparison (`History.from_scalar_attribute`),
  so a row whose attributes were all re-assigned their existing values
  emits no UPDATE.  `commitDoc` reflects this: `updated_at` is bumped
  exactly when some column net-changed.
-/

namespace AiBlog

/-- The whitespace characters recognised by Python `str.split()` on
ASCII input (space, tab, newline, carriage return, vertical tab, form feed). -/
def pyIsSpace (c : Char) : Bool :=
  c == ' ' || c == '\t' || c == '\n' || c == '\x0d' || c == '\x0b' || c == '\x0c'

/-- Counts the maximal runs of non-whitespace characters; the boolean
records whether the previous character was inside such a run. -/
def countTokens : List Char → Bool → Nat
  | [], _ => 0
  | c :: rest, inTok =>
    if pyIsSpace c then countTokens rest false
    else (if inTok then 0 else 1) + countTokens rest true

/-- Number of whitespace-delimited tokens of a string: Python `len(s.split())`.
`str.split()` with no argument splits on runs of whitespace and discards
empty tokens, so the result is the number of maximal non-whitespace runs. -/
def pyWordCount (s : String) : Nat :=
  countTokens s.toList false

/-- Python `round(a / b)` for natural `a`, positive `b`: rounds the exact
rational `a / b` to the nearest integer, ties to even (Python float
division of these magnitudes is exact at every tie point `k + 1/2`). -/
def pyRoundDiv (a b : Nat) : Nat :=
  let q := a / b
  let r := a % b
  if 2 * r < b then q
  else if 2 * r > b then q + 1
  else if q % 2 = 0 then q else q + 1

/-- A row of `blog_posts` (`app/models/content.py`, class `BlogPost`),
restricted to the columns the Draft Persistence & Versioning Core reads
or writes.  `keywords` is stored as a JSON string in the source
(`json.dumps(list)` or SQL NULL); it is modelled as the decoded value. -/
structure BlogPost where
  id : String
  user_id : String
  title : String
  content : String
  meta_description : Option String
  keywords : Option (List String)
  status : String
  post_type : String
  tone : String
  seo_score : Nat
  word_count : Nat
  reading_time : Nat
  slug : Option String
  featured_image_url : Option String
  template_category : Option String
  updated_at : Nat
  deriving DecidableEq, Repr

/-- `BlogPost.update_word_count` (`app/models/content.py`): recomputes
`word_count` from `content`, but only when `content` is truthy. -/
def update_word_count (p : BlogPost) : BlogPost :=
  if p.content ≠ "" then { p with word_count := pyWordCount p.content } else p

/-- `BlogPost.calculate_reading_time` (`app/models/content.py`):
`reading_time = max(1, round(word_count / 200))`, but only when
`word_count` is truthy (nonzero). -/
def calculate_reading_time (p : BlogPost) : BlogPost :=
  if p.word_count ≠ 0 then
    { p with reading_time := max 1 (pyRoundDiv p.word_count 200) }
  else p

/-- Title component of `ContentService._calculate_seo_score`. -/
def titleScore (t : String) : Nat :=
  if 5 ≤ t.length ∧ t.length ≤ 60 then 20
  else if t.length ≤ 70 then 15
  else 0

/-- Meta-description component of `ContentService._calculate_seo_score`:
the source guards the whole block with `if blog_post.meta_description:`,
so SQL NULL and the empty string both contribute 0. -/
def metaScore : Option String → Nat
  | none => 0
  | some m =>
    if m = "" then 0
    else if 120 ≤ m.length ∧ m.length ≤ 160 then 20
    else if m.length ≤ 180 then 15
    else 0

/-- Word-count component of `ContentService._calculate_seo_score`. -/
def wordCountScore (wc : Nat) : Nat :=
  if 300 ≤ wc then 20 else if 200 ≤ wc then 15 else 0

/-- Keywords component of `ContentService._calculate_seo_score`: +20 iff
the stored JSON decodes to a non-empty list. -/
def keywordsScore : Option (List String) → Nat
  | none => 0
  | some l => if l ≠ [] then 20 else 0

/-- Slug component of `ContentService._calculate_seo_score`: +20 iff the
slug is present and non-empty. -/
def slugScore : Option String → Nat
  | none => 0
  | some s => if s ≠ "" then 20 else 0

/-- `ContentService._calculate_seo_score`: sum of the five components,
capped at 100. -/
def calculate_seo_score (p : BlogPost) : Nat :=
  min (titleScore p.title + metaScore p.meta_description
    + wordCountScore p.word_count + keywordsScore p.keywords
    + slugScore p.slug) 100

/-- Meta-description component as the claim states it, word for word:
"add 20 if meta_description length is in [120,160] else 15 if at most
180" — no emptiness condition, so an empty meta description (length 0)
is awarded 15. An absent (NULL) meta description has no length and is
read as contributing 0. -/
def claimMetaScore : Option String → Nat
  | none => 0
  | some m =>
    if 120 ≤ m.length ∧ m.length ≤ 160 then 20
    else if m.length ≤ 180 then 15
    else 0

/-- The SEO algorithm exactly as claim C6 states it (differs from the
code only in the meta-description component). -/
def seo_score_claimed (p : BlogPost) : Nat :=
  min (titleScore p.title + claimMetaScore p.meta_description
    + wordCountScore p.word_count + keywordsScore p.keywords
    + slugScore p.slug) 100

/-- The SEO algorithm of the claim, amended only in the meta-description
component: the meta points are awarded only when a meta description is
present and non-empty (absent or empty contributes 0, and length above
180 contributes 0). -/
def seo_score_amended (p : BlogPost) : Nat :=
  min (titleScore p.title
    + (match p.meta_description with
       | none => 0
       | some m =>
         if m = "" then 0
         else if 120 ≤ m.length ∧ m.length ≤ 160 then 20
         else if m.length ≤ 180 then 15
         else 0)
    + wordCountScore p.word_count + keywordsScore p.keywords
    + slugScore p.slug) 100

/-- A row of `post_versions` (`app/models/content.py`, class `PostVersion`).
The service always writes `title`, `content` and `changes_summary` from
in-memory strings, so they are modelled as `String` (the empty string
standing for any falsy value). -/
structure PostVersion where
  post_id : String
  version_number : Nat
  title : String
  content : String
  changes_summary : String
  word_count : Nat
  deriving DecidableEq, Repr

/-- `ORDER BY version_number DESC LIMIT 1` over the versions of one
post: the largest version number present, 0 when there are none. -/
def maxVersionNumber (vs : List PostVersion) : Nat :=
  vs.foldr (fun v acc => max v.version_number acc) 0

/-- `ContentService._create_version`: reads the largest existing
version number for the post (treated as 0 when no version exists), adds
1, and inserts the snapshot row.  Returns the updated version table. -/
def create_version (p : BlogPost) (vs : List PostVersion) (summary : String) :
    List PostVersion :=
  vs ++ [{ post_id := p.id
           version_number := maxVersionNumber vs + 1
           title := p.title
           content := p.content
           changes_summary := summary
           word_count := p.word_count }]

/-- Lower-casing as Python `str.lower()` acts on the ASCII range. -/
def pyLower (s : String) : String := String.mk (s.toList.map Char.toLower)

/-- A character kept by the first substitution of
`ContentService._generate_slug` (`re.sub` removing everything but
`a-z0-9`, whitespace and hyphen, applied after lower-casing). -/
def slugKeep (c : Char) : Bool :=
  ('a' ≤ c && c ≤ 'z') || ('0' ≤ c && c ≤ '9') || pyIsSpace c || c == '-'

/-- The second substitution of `_generate_slug`: each maximal whitespace
run becomes a single hyphen (the boolean records whether the previous
character was whitespace). -/
def collapseSpaces : List Char → Bool → List Char
  | [], _ => []
  | c :: rest, prev =>
    if pyIsSpace c then
      if prev then collapseSpaces rest true else '-' :: collapseSpaces rest true
    else c :: collapseSpaces rest false

/-- Python `str.strip('-')`: removes leading and trailing hyphens. -/
def stripHyphens (l : List Char) : List Char :=
  ((l.dropWhile (· == '-')).reverse.dropWhile (· == '-')).reverse

/-- `ContentService._generate_slug`: lower-case the title, drop
characters other than `a-z0-9`, whitespace and hyphen, replace
whitespace runs by single hyphens, strip outer hyphens and truncate to
100 characters. -/
def generate_slug (title : String) : String :=
  String.mk ((stripHyphens
    (collapseSpaces ((pyLower title).toList.filter slugKeep) false)).take 100)

/-- The candidate loop of `ContentService._ensure_unique_slug`.  `fuel`
bounds the recursion: the Python loop terminates because the candidates
`orig`, `orig-1`, `orig-2`, … are pairwise distinct and the taken set is
finite, so `taken.length + 1` rounds always reach a free slug and the
fuel case is never the answer.  The counter starts at 1, so the first
disambiguated candidate carries the suffix `-1`. -/
def ensureUniqueSlugAux (orig : String) (taken : List String) :
    Nat → String → Nat → String
  | 0, slug, _ => slug
  | fuel + 1, slug, counter =>
    if taken.contains slug then
      ensureUniqueSlugAux orig taken fuel (orig ++ "-" ++ toString counter) (counter + 1)
    else slug

/-- `ContentService._ensure_unique_slug`: `taken` holds the slugs the
store already contains for this owner (excluding, on update, the post
being updated). -/
def ensure_unique_slug (slug : String) (taken : List String) : String :=
  ensureUniqueSlugAux slug taken (taken.length + 1) slug 1

/-- The metric-recomputation block shared by create, content-changing
update and rollback: `update_word_count()`, `calculate_reading_time()`,
then `seo_score = _calculate_seo_score(blog_post)`. -/
def recomputeMetrics (p : BlogPost) : BlogPost :=
  let pa := calculate_reading_time (update_word_count p)
  { pa with seo_score := calculate_seo_score pa }

/-- `BlogPostCreate` (`app/schemas/content.py`): the validated creation
payload.  Pydantic enforces `title` length at least 5 and `content`
length at least 100; claims that need those bounds take them as
hypotheses. -/
structure BlogPostCreate where
  title : String
  content : String
  meta_description : Option String := none
  keywords : Option (List String) := none
  status : String := "draft"
  post_type : String := "article"
  tone : String := "professional"
  slug : Option String := none
  featured_image_url : Option String := none
  template_category : Option String := none
  deriving Repr

/-- `BlogPostUpdate` (`app/schemas/content.py`): the validated patch.
`none` stands both for a field left unset (absent from
`dict(exclude_unset=True)`) and for an explicit null (present in the
dict but skipped by every `is not None` guard of the field loop) —
the two are indistinguishable in effect in
`ContentService.update_blog_post`. -/
structure BlogPostUpdate where
  title : Option String := none
  content : Option String := none
  meta_description : Option String := none
  keywords : Option (List String) := none
  status : Option String := none
  post_type : Option String := none
  tone : Option String := none
  slug : Option String := none
  featured_image_url : Option String := none
  template_category : Option String := none
  deriving Repr

/-- The field loop of `ContentService.update_blog_post`: every patch
field that is present with a non-null value is assigned onto the row
(keywords re-encoded to JSON, enums unwrapped to their string values);
every other column is untouched. -/
def applyUpdateFields (p : BlogPost) (u : BlogPostUpdate) : BlogPost :=
  { p with
      title := u.title.getD p.title
      content := u.content.getD p.content
      meta_description := match u.meta_description with
        | some m => some m
        | none => p.meta_description
      keywords := match u.keywords with
        | some l => some l
        | none => p.keywords
      status := u.status.getD p.status
      post_type := u.post_type.getD p.post_type
      tone := u.tone.getD p.tone
      slug := match u.slug with
        | some s => some s
        | none => p.slug
      featured_image_url := match u.featured_image_url with
        | some v => some v
        | none => p.featured_image_url
      template_category := match u.template_category with
        | some v => some v
        | none => p.template_category }

/-- The guard `update_data.title and update_data.title != original_title`
(Python truthiness: null or empty patch title never fires it). -/
def titleChangedGuard (u : BlogPostUpdate) (origTitle : String) : Bool :=
  match u.title with
  | some t => t ≠ "" && t ≠ origTitle
  | none => false

/-- The guard `update_data.content and update_data.content != original_content`. -/
def contentChangedGuard (u : BlogPostUpdate) (origContent : String) : Bool :=
  match u.content with
  | some c => c ≠ "" && c ≠ origContent
  | none => false

/-- `db.commit()` as it affects the row: SQLAlchemy's flush compares
each assigned attribute against its committed value
(`History.from_scalar_attribute` uses an equality check), so re-assigning
every column its existing value emits no UPDATE; the
`onupdate=func.now()` column `updated_at` advances exactly when some
column net-changed. -/
def commitDoc (old new : BlogPost) (now : Nat) : BlogPost :=
  if new = old then old else { new with updated_at := now }

/-- `ContentService.create_blog_post`: chooses the slug (generated from
the title when the payload's slug is falsy, then disambiguated against
the owner's taken slugs), stores the row with freshly computed metrics,
and writes version 1 with summary "Initial version".  `keywords` follows
`json.dumps(post_data.keywords) if post_data.keywords else None`. -/
def createBase (inp : BlogPostCreate) (user_id id slug : String) (now : Nat) :
    BlogPost :=
  { id := id, user_id := user_id, title := inp.title, content := inp.content
    meta_description := inp.meta_description
    keywords := match inp.keywords with
      | some l => if l ≠ [] then some l else none
      | none => none
    status := inp.status, post_type := inp.post_type, tone := inp.tone
    seo_score := 0, word_count := 0, reading_time := 0
    slug := some slug
    featured_image_url := inp.featured_image_url
    template_category := inp.template_category
    updated_at := now }

/-- The slug `create_blog_post` starts from: the payload's slug when
truthy, else one generated from the title. -/
def createRawSlug (inp : BlogPostCreate) : String :=
  match inp.slug with
  | some s => if s ≠ "" then s else generate_slug inp.title
  | none => generate_slug inp.title

/-- The full creation operation (see `createBase`). -/
def create_blog_post (inp : BlogPostCreate) (user_id : String)
    (takenSlugs : List String) (id : String) (now : Nat) :
    BlogPost × List PostVersion :=
  let p2 := recomputeMetrics
    (createBase inp user_id id (ensure_unique_slug (createRawSlug inp) takenSlugs) now)
  (p2, create_version p2 [] "Initial version")

/-- `ContentService.update_blog_post` for an existing, owner-matched
row: applies the non-null patch fields, regenerates and
re-disambiguates the slug when the patch title is truthy and differs
from the stored title, recomputes the derived metrics when the patch
content is truthy and differs from the stored content, commits, and
appends a version (summary defaulting to "Content updated") exactly
when one of the two guards fired.  `updDoc` is the row-state part of
that operation (field loop, conditional slug regeneration, conditional
metric recomputation); `update_blog_post` adds the commit and the
version append. -/
def updDoc (p : BlogPost) (u : BlogPostUpdate) (takenSlugs : List String) :
    BlogPost :=
  let p1 := applyUpdateFields p u
  let p2 := if titleChangedGuard u p.title then
      { p1 with slug := some (ensure_unique_slug (generate_slug (u.title.getD "")) takenSlugs) }
    else p1
  if contentChangedGuard u p.content then recomputeMetrics p2 else p2

/-- See `updDoc` (the row-state part) and the version guard below. -/
def update_blog_post (p : BlogPost) (vs : List PostVersion)
    (u : BlogPostUpdate) (changes_summary : Option String)
    (takenSlugs : List String) (now : Nat) : BlogPost × List PostVersion :=
  let p4 := commitDoc p (updDoc p u takenSlugs) now
  if contentChangedGuard u p.content || titleChangedGuard u p.title then
    (p4, create_version p4 vs (changes_summary.getD "Content updated"))
  else (p4, vs)

/-- `ContentService.rollback_to_version` for an existing owner-matched
post: fetches the requested version (`none` when absent), restores the
snapshot title and content under Python truthiness guards, recomputes
the derived metrics only when the snapshot content is truthy, commits,
and appends a new version with summary "Rolled back to version n". -/
def rollback_to_version (p : BlogPost) (vs : List PostVersion) (n : Nat)
    (now : Nat) : Option (BlogPost × List PostVersion) :=
  match vs.find? (fun v => v.version_number == n) with
  | none => none
  | some v =>
    let p1 := if v.title ≠ "" then { p with title := v.title } else p
    let p2 := if v.content ≠ "" then recomputeMetrics { p1 with content := v.content }
      else p1
    let p3 := commitDoc p p2 now
    some (p3, create_version p3 vs ("Rolled back to version " ++ toString n))

/-- The conflict record `AutoSaveService._handle_conflict` stores into
the cache entry. -/
structure ConflictRecord where
  detected_at : Nat
  remote_content : String
  remote_title : String
  local_content : String
  local_title : String
  deriving DecidableEq, Repr

/-- A Draft Cache entry (`AutoSaveService._autosave_cache[cache_key]`). -/
structure CacheEntry where
  post_id : String
  user_id : String
  content : String
  title : String
  last_modified : Nat
  save_pending : Bool
  last_saved : Option Nat := none
  conflict : Option ConflictRecord := none
  deriving DecidableEq, Repr

/-- `AutoSaveService._has_conflict`: the stored row was committed
strictly after the buffer snapshot was last modified. -/
def has_conflict (p : BlogPost) (e : CacheEntry) : Bool :=
  p.updated_at > e.last_modified

/-- The ordering `ORDER BY version_number DESC` reads rows in. -/
def descByNumber (a b : PostVersion) : Prop :=
  b.version_number ≤ a.version_number

instance : DecidableRel descByNumber := fun _ _ => Nat.decLe _ _

instance : IsTotal PostVersion descByNumber :=
  ⟨fun a b => Nat.le_total b.version_number a.version_number⟩

instance : IsTrans PostVersion descByNumber :=
  ⟨fun _ _ _ h1 h2 => Nat.le_trans h2 h1⟩

/-- `AutoSaveService._cleanup_old_versions`: reads the versions newest
first and, when there are more than `maxPerPost` of them, deletes all
but the `maxPerPost` with the highest version numbers; otherwise the
table is untouched. -/
def cleanup_old_versions (vs : List PostVersion) (maxPerPost : Nat) :
    List PostVersion :=
  let sorted := vs.insertionSort descByNumber
  if sorted.length > maxPerPost then sorted.take maxPerPost else vs

/-- `AutoSaveService._perform_autosave` for a cache entry whose post
exists and is owner-matched: when the buffered content and title equal
the stored ones, only `save_pending` is cleared; otherwise, when the
store was committed after the buffer snapshot, the conflict is recorded
and the store is untouched; otherwise the buffer is persisted through
`update_blog_post` with summary "Auto-saved" and old versions are
pruned. -/
def perform_autosave (p : BlogPost) (vs : List PostVersion) (e : CacheEntry)
    (takenSlugs : List String) (maxPerPost : Nat) (now : Nat) :
    BlogPost × List PostVersion × CacheEntry :=
  if p.content = e.content ∧ p.title = e.title then
    (p, vs, { e with save_pending := false })
  else if has_conflict p e then
    (p, vs, { e with conflict := some (
      { detected_at := now, remote_content := p.content, remote_title := p.title
        local_content := e.content, local_title := e.title : ConflictRecord }) })
  else
    let r := update_blog_post p vs { title := some e.title, content := some e.content }
      (some "Auto-saved") takenSlugs now
    (r.1, cleanup_old_versions r.2 maxPerPost,
      { e with save_pending := false, last_saved := some now })

/-- The version table produced by a sequence of content-affecting
operations (create, content- or title-changing update, rollback), each
of which snapshots the then-current post through `create_version`. -/
def buildVersions (ops : List (BlogPost × String)) : List PostVersion :=
  ops.foldl (fun vs op => create_version op.1 vs op.2) []

/-- A blog post with all fields at their freshly-inserted defaults,
convenient for building concrete instances. -/
def basePost : BlogPost where
  id := "p1"
  user_id := "u1"
  title := "A valid title"
  content := ""
  meta_description := none
  keywords := none
  status := "draft"
  post_type := "article"
  tone := "professional"
  seo_score := 0
  word_count := 0
  reading_time := 0
  slug := none
  featured_image_url := none
  template_category := none
  updated_at := 0

/-- A 60-character title. -/
def title60 : String := String.mk (List.replicate 60 'a')

/-- A 61-character title. -/
def title61 : String := String.mk (List.replicate 61 'a')

/-- A 160-character meta description. -/
def meta160 : String := String.mk (List.replicate 160 'm')

/-- A blog post hitting every top band of the SEO score. -/
def seoFullPost : BlogPost :=
  { basePost with
      title := title60
      meta_description := some meta160
      keywords := some ["kw"]
      word_count := 300
      slug := some "a-slug" }

/-- `seoFullPost` with its meta description set to the empty string. -/
def metaEmptyPost : BlogPost :=
  { seoFullPost with meta_description := some "" }

/-- 55 versions numbered 1..55, for exercising the retention cap. -/
def demoVersions : List PostVersion :=
  (List.range 55).map (fun i =>
    { post_id := "p1", version_number := i + 1, title := "Snapshot title"
      content := "Snapshot content", changes_summary := "edit", word_count := 2 })

/-- A creation payload without an explicit slug. -/
def c7Create : BlogPostCreate :=
  { title := "My First Post"
    content := String.mk (List.replicate 120 'x') }

/-- A post holding a previously assigned slug. -/
def c10Post : BlogPost := { basePost with slug := some "orig-slug" }

/-- A patch containing only a new title; its slug field is absent. -/
def c10Patch : BlogPostUpdate := { title := some "Completely Different" }

/-- A stored version snapshot with non-empty title and content. -/
def demoSnapshot : PostVersion :=
  { post_id := "p1", version_number := 1, title := "Older title"
    content := "Older content of the post", changes_summary := "Initial version"
    word_count := 5 }

/-- A one-version table containing `demoSnapshot`. -/
def demoVs : List PostVersion := [demoSnapshot]

/-- A cache entry whose buffer differs from `basePost` and whose
snapshot time 3 precedes the store's `updated_at`. -/
def demoStaleEntry : CacheEntry :=
  { post_id := "p1", user_id := "u1", content := "locally edited body"
    title := "locally edited title", last_modified := 3, save_pending := true }

/-- A cache entry whose buffer equals `basePost`'s stored content. -/
def demoCleanEntry : CacheEntry :=
  { post_id := "p1", user_id := "u1", content := basePost.content
    title := basePost.title, last_modified := 3, save_pending := true }

/-! ## Helper lemmas -/

lemma string_append_ne (s t : String) (h : t ≠ "") : s ++ t ≠ s := by
  intro he
  have hl := congrArg String.length he
  rw [String.length_append] at hl
  have h0 : t.length = 0 := by omega
  apply h
  cases t with
  | mk data =>
    have hd : data.length = 0 := h0
    rw [List.length_eq_zero] at hd
    rw [hd]

lemma foldr_max_shift (l : List Nat) (b : Nat) :
    l.foldr max b = max b (l.foldr max 0) := by
  induction l with
  | nil => simp
  | cons c l ih => simp only [List.foldr_cons, ih]; omega

lemma maxVersionNumber_eq (vs : List PostVersion) :
    maxVersionNumber vs = (vs.map PostVersion.version_number).foldr max 0 := by
  induction vs with
  | nil => rfl
  | cons v vs ih =>
    show max v.version_number (maxVersionNumber vs) = _
    rw [List.map_cons, List.foldr_cons, ih]

lemma foldr_max_range' (n : Nat) : (List.range' 1 n).foldr max 0 = n := by
  induction n with
  | zero => rfl
  | succ n ih =>
    rw [List.range'_1_concat, List.foldr_append, List.foldr_cons, List.foldr_nil,
      foldr_max_shift, ih]
    omega

lemma create_version_map (p : BlogPost) (vs : List PostVersion) (s : String) :
    (create_version p vs s).map PostVersion.version_number
      = vs.map PostVersion.version_number ++ [maxVersionNumber vs + 1] := by
  simp [create_version]

lemma buildVersions_aux (ops : List (BlogPost × String)) :
    ∀ (vs : List PostVersion) (n : Nat),
      vs.map PostVersion.version_number = List.range' 1 n →
      ((ops.foldl (fun acc op => create_version op.1 acc op.2) vs).map
          PostVersion.version_number)
        = List.range' 1 (n + ops.length) := by
  induction ops with
  | nil => intro vs n h; simpa using h
  | cons op ops ih =>
    intro vs n h
    have hmax : maxVersionNumber vs = n := by
      rw [maxVersionNumber_eq, h, foldr_max_range']
    have hstep : (create_version op.1 vs op.2).map PostVersion.version_number
        = List.range' 1 (n + 1) := by
      rw [create_version_map, h, hmax, List.range'_1_concat, Nat.add_comm 1 n]
    rw [List.foldl_cons, List.length_cons,
      show n + (ops.length + 1) = (n + 1) + ops.length from by omega]
    exact ih _ (n + 1) hstep

/-! ## Claim theorems -/

/-- C1: over any sequence of create/update/rollback operations on one
document, each of which appends a snapshot through `create_version`
(which assigns (max existing version number, or 0) + 1), the version
numbers form exactly the sequence 1, 2, 3, …: the table's numbers read
`[1, …, n]`, strictly increasing, with no duplicates, starting at 1. -/
theorem c1_version_numbers_sequential (ops : List (BlogPost × String)) :
    (buildVersions ops).map PostVersion.version_number = List.range' 1 ops.length
    ∧ List.Chain' (· < ·) ((buildVersions ops).map PostVersion.version_number)
    ∧ ((buildVersions ops).map PostVersion.version_number).Nodup := by
  have h : (buildVersions ops).map PostVersion.version_number
      = List.range' 1 (0 + ops.length) :=
    buildVersions_aux ops [] 0 rfl
  rw [Nat.zero_add] at h
  refine ⟨h, ?_, ?_⟩
  · rw [h]; exact (List.pairwise_lt_range' 1 ops.length).chain'
  · rw [h]; exact List.nodup_range' 1 ops.length

/-- C6 counterexample: for a post whose meta_description is the empty
string, the claim's algorithm awards the meta component 15 (length 0 is
at most 180), while the code's whole meta block is guarded by Python
truthiness and awards 0 — so the code's score is not the claim's
algorithm on this input (80 versus 95). -/
theorem c6_counterexample :
    seo_score_claimed metaEmptyPost = 95
    ∧ calculate_seo_score metaEmptyPost = 80
    ∧ seo_score_claimed metaEmptyPost ≠ calculate_seo_score metaEmptyPost := by
  refine ⟨by decide, by decide, by decide⟩

/-- C6 (amended): the SEO score equals the claim's algorithm amended in
the meta component only — meta points are awarded only when a meta
description is present and non-empty.  The claimed boundary consequences
hold: the full-band post scores exactly 100, and a 61-character title
(at most 70) drops the title component from 20 to 15, here the total
from 100 to 95. -/
theorem c6_seo_score_amended :
    (∀ p : BlogPost, calculate_seo_score p = seo_score_amended p)
    ∧ calculate_seo_score seoFullPost = 100
    ∧ calculate_seo_score { seoFullPost with title := title61 } = 95
    ∧ titleScore title60 = 20 ∧ titleScore title61 = 15 := by
  refine ⟨fun p => ?_, by decide, by decide, by decide, by decide⟩
  unfold calculate_seo_score seo_score_amended metaScore
  rfl

/-- C9 counterexample: a freshly-inserted post with empty body, run
through the code's metric updates, keeps word_count 0 (which matches the
claim) but keeps reading_time 0 — `calculate_reading_time` is guarded by
word-count truthiness — while the claim requires
max(1, round(0/200)) = 1. -/
theorem c9_counterexample :
    (calculate_reading_time (update_word_count basePost)).word_count = 0
    ∧ (calculate_reading_time (update_word_count basePost)).reading_time = 0
    ∧ max 1 (pyRoundDiv 0 200) = 1
    ∧ (calculate_reading_time (update_word_count basePost)).reading_time
        ≠ max 1 (pyRoundDiv
            (calculate_reading_time (update_word_count basePost)).word_count 200) := by
  refine ⟨by decide, by decide, by decide, by decide⟩

/-- C9 (amended): for a non-empty body the stored word count is the
number of whitespace-delimited tokens of the body (and an empty body is
left untouched, so a fresh document keeps the default 0, which also
equals the token count of the empty body); the stored reading time is
max(1, round(word_count / 200)) minutes whenever word_count is nonzero,
while a zero word count leaves reading_time at its previous value (0
for a fresh document), not 1. -/
theorem c9_word_count_reading_time :
    (∀ p : BlogPost, p.content ≠ "" →
        (update_word_count p).word_count = pyWordCount p.content)
    ∧ (∀ p : BlogPost, p.content = "" → update_word_count p = p)
    ∧ (∀ p : BlogPost, p.word_count ≠ 0 →
        (calculate_reading_time p).reading_time = max 1 (pyRoundDiv p.word_count 200))
    ∧ (∀ p : BlogPost, p.word_count = 0 → calculate_reading_time p = p) := by
  refine ⟨fun p h => ?_, fun p h => ?_, fun p h => ?_, fun p h => ?_⟩ <;>
    simp [update_word_count, calculate_reading_time, h]

/-- C9 witness: the amended statement evaluated at concrete posts — a
two-word body yields word_count 2, and word_count 300 yields reading
time 2 = max(1, round(1.5)). -/
theorem c9_word_count_reading_time_witness :
    (update_word_count { basePost with content := "hello world" }).word_count = 2
    ∧ (calculate_reading_time { basePost with word_count := 300 }).reading_time = 2 := by
  constructor
  · rw [c9_word_count_reading_time.1 { basePost with content := "hello world" }
      (by decide)]
    decide
  · rw [c9_word_count_reading_time.2.2.1 { basePost with word_count := 300 }
      (by decide)]
    decide

lemma update_word_count_eq (p : BlogPost) :
    update_word_count p = { p with word_count :=
      (if p.content ≠ "" then pyWordCount p.content else p.word_count) } := by
  unfold update_word_count
  split <;> rfl

lemma calculate_reading_time_eq (p : BlogPost) :
    calculate_reading_time p = { p with reading_time :=
      (if p.word_count ≠ 0 then max 1 (pyRoundDiv p.word_count 200)
       else p.reading_time) } := by
  unfold calculate_reading_time
  split <;> rfl

lemma commitDoc_cases (old new : BlogPost) (now : Nat) :
    commitDoc old new now = new
      ∨ commitDoc old new now = { new with updated_at := now } := by
  unfold commitDoc
  by_cases h : new = old
  · exact Or.inl (by rw [if_pos h, h])
  · exact Or.inr (by rw [if_neg h])

/-- C8: pruning a version table that holds more than `maxN` versions
(with pairwise-distinct version numbers) retains exactly `maxN` rows,
every retained row is one of the original rows — numbers unrenumbered —
and every retained row's version number strictly exceeds every deleted
row's, i.e. exactly the `maxN` highest survive. -/
theorem c8_prune_keeps_highest (vs : List PostVersion) (maxN : Nat)
    (hlen : maxN < vs.length)
    (hnd : (vs.map PostVersion.version_number).Nodup) :
    (cleanup_old_versions vs maxN).length = maxN
    ∧ (∀ v ∈ cleanup_old_versions vs maxN, v ∈ vs)
    ∧ (∀ v ∈ cleanup_old_versions vs maxN, ∀ w ∈ vs,
        w ∉ cleanup_old_versions vs maxN →
          w.version_number < v.version_number) := by
  have hperm : (vs.insertionSort descByNumber).Perm vs :=
    List.perm_insertionSort _ vs
  have hsl : (vs.insertionSort descByNumber).length = vs.length :=
    hperm.length_eq
  have hgt : maxN < (vs.insertionSort descByNumber).length := by rw [hsl]; exact hlen
  have hkept : cleanup_old_versions vs maxN
      = (vs.insertionSort descByNumber).take maxN := by
    show (if (vs.insertionSort descByNumber).length > maxN
        then (vs.insertionSort descByNumber).take maxN else vs) = _
    rw [if_pos hgt]
  have hsorted : List.Pairwise descByNumber (vs.insertionSort descByNumber) :=
    List.sorted_insertionSort descByNumber vs
  have hnd' : ((vs.insertionSort descByNumber).map PostVersion.version_number).Nodup :=
    (hperm.map PostVersion.version_number).nodup_iff.mpr hnd
  have hne : List.Pairwise
      (fun a b : PostVersion => a.version_number ≠ b.version_number)
      (vs.insertionSort descByNumber) := List.pairwise_map.mp hnd'
  have hsplit := List.take_append_drop maxN (vs.insertionSort descByNumber)
  have hcross : ∀ a ∈ (vs.insertionSort descByNumber).take maxN,
      ∀ b ∈ (vs.insertionSort descByNumber).drop maxN, descByNumber a b := by
    have h := hsorted
    rw [← hsplit] at h
    exact (List.pairwise_append.mp h).2.2
  have hcrossne : ∀ a ∈ (vs.insertionSort descByNumber).take maxN,
      ∀ b ∈ (vs.insertionSort descByNumber).drop maxN,
        a.version_number ≠ b.version_number := by
    have h := hne
    rw [← hsplit] at h
    exact (List.pairwise_append.mp h).2.2
  refine ⟨?_, ?_, ?_⟩
  · rw [hkept, List.length_take]
    omega
  · intro v hv
    rw [hkept] at hv
    exact hperm.subset (List.mem_of_mem_take hv)
  · intro v hv w hw hwn
    rw [hkept] at hv hwn
    have hws : w ∈ vs.insertionSort descByNumber := hperm.mem_iff.mpr hw
    rw [← hsplit] at hws
    rcases List.mem_append.mp hws with h1 | h2
    · exact absurd h1 hwn
    · have h3 : w.version_number ≤ v.version_number := hcross v hv w h2
      have h4 : v.version_number ≠ w.version_number := hcrossne v hv w h2
      omega

/-- C8 witness: 55 versions numbered 1..55 with retention cap 50 — the
theorem applies, and the pruned table is exactly the rows numbered 55
down to 6 (the 50 highest version numbers), unrenumbered. -/
theorem c8_prune_witness :
    (cleanup_old_versions demoVersions 50).length = 50
    ∧ (cleanup_old_versions demoVersions 50).map PostVersion.version_number
        = (List.range' 6 50).reverse := by
  constructor
  · exact (c8_prune_keeps_highest demoVersions 50 (by decide) (by decide)).1
  · decide

/-- C3: an update resubmitting exactly the stored title and body is a
no-op: the returned row is the original row (derived metrics and
updated_at unchanged — no UPDATE is flushed) and no version is
appended; likewise an autosave whose buffered title and content equal
the stored ones only clears the pending flag, leaving the row and the
version table untouched. -/
theorem c3_noop_update_idempotent :
    (∀ (p : BlogPost) (vs : List PostVersion) (s : Option String)
        (taken : List String) (now : Nat),
      update_blog_post p vs { title := some p.title, content := some p.content }
          s taken now = (p, vs))
    ∧ (∀ (p : BlogPost) (vs : List PostVersion) (e : CacheEntry)
        (taken : List String) (maxN now : Nat),
      e.content = p.content → e.title = p.title →
      perform_autosave p vs e taken maxN now
        = (p, vs, { e with save_pending := false })) := by
  constructor
  · intro p vs s taken now
    have hfields : applyUpdateFields p
        { title := some p.title, content := some p.content } = p := rfl
    have ht : titleChangedGuard
        { title := some p.title, content := some p.content } p.title = false := by
      simp [titleChangedGuard]
    have hcg : contentChangedGuard
        { title := some p.title, content := some p.content } p.content = false := by
      simp [contentChangedGuard]
    unfold update_blog_post updDoc
    rw [ht, hcg]
    simp [hfields, commitDoc]
  · intro p vs e taken maxN now hce hte
    unfold perform_autosave
    rw [if_pos ⟨hce.symm, hte.symm⟩]

/-- C3 witness: the no-op update and the no-op autosave evaluated on a
concrete post and a matching cache entry. -/
theorem c3_noop_witness :
    update_blog_post basePost []
        { title := some basePost.title, content := some basePost.content }
        none [] 7 = (basePost, [])
    ∧ perform_autosave basePost [] demoCleanEntry [] 50 7
        = (basePost, [], { demoCleanEntry with save_pending := false }) :=
  ⟨c3_noop_update_idempotent.1 basePost [] none [] 7,
   c3_noop_update_idempotent.2 basePost [] demoCleanEntry [] 50 7 rfl rfl⟩

/-- C4: for a buffered draft that differs from the store, an autosave
attempt declares a conflict iff the store's updated_at is strictly
after the buffer's last_modified; on conflict the entry records the
remote and local title/body, and neither the document row nor the
version table is changed by the attempt. -/
theorem c4_conflict_detection (p : BlogPost) (vs : List PostVersion)
    (e : CacheEntry) (taken : List String) (maxN now : Nat)
    (hdiff : ¬(p.content = e.content ∧ p.title = e.title))
    (hclean : e.conflict = none) :
    ((perform_autosave p vs e taken maxN now).2.2.conflict ≠ none
        ↔ e.last_modified < p.updated_at)
    ∧ (e.last_modified < p.updated_at →
        perform_autosave p vs e taken maxN now
          = (p, vs, { e with conflict := some (⟨now, p.content, p.title, e.content, e.title⟩ : ConflictRecord) })) := by
  unfold perform_autosave has_conflict
  rw [if_neg hdiff]
  by_cases hc : e.last_modified < p.updated_at
  · simp [gt_iff_lt, hc]
  · simp [gt_iff_lt, hc, hclean]

/-- C4 witness: a store row committed at time 5 against a buffer
snapshotted at time 3 with different content — the autosave attempt
records the conflict and leaves the store untouched. -/
theorem c4_conflict_witness :
    perform_autosave { basePost with updated_at := 5 } [] demoStaleEntry [] 50 9
      = ({ basePost with updated_at := 5 }, [],
         { demoStaleEntry with conflict := some (⟨9, basePost.content, basePost.title, demoStaleEntry.content, demoStaleEntry.title⟩ : ConflictRecord) }) :=
  (c4_conflict_detection { basePost with updated_at := 5 } [] demoStaleEntry
    [] 50 9 (by decide) rfl).2 (by decide)

lemma recomputeMetrics_title (p : BlogPost) :
    (recomputeMetrics p).title = p.title := by
  simp [recomputeMetrics, update_word_count_eq, calculate_reading_time_eq]

lemma recomputeMetrics_content (p : BlogPost) :
    (recomputeMetrics p).content = p.content := by
  simp [recomputeMetrics, update_word_count_eq, calculate_reading_time_eq]

lemma recomputeMetrics_slug (p : BlogPost) :
    (recomputeMetrics p).slug = p.slug := by
  simp [recomputeMetrics, update_word_count_eq, calculate_reading_time_eq]

lemma calculate_seo_score_set_seo (p : BlogPost) (x : Nat) :
    calculate_seo_score { p with seo_score := x } = calculate_seo_score p := rfl

lemma update_blog_post_fst (p : BlogPost) (vs : List PostVersion)
    (u : BlogPostUpdate) (s : Option String) (taken : List String) (now : Nat) :
    (update_blog_post p vs u s taken now).1 = commitDoc p (updDoc p u taken) now := by
  unfold update_blog_post
  split <;> rfl

/-- C2: rolling back an owned document to an existing version `n` whose
snapshot title and content are non-empty (every snapshot written through
the validated schema is: title length at least 5, content length at
least 100) overwrites the row's title and body with the snapshot (so a
subsequent read returns them), appends exactly one new version whose
summary is "Rolled back to version n", and leaves every existing
version row in place unmodified. -/
theorem c2_rollback_round_trip (p : BlogPost) (vs : List PostVersion)
    (n now : Nat) (v : PostVersion)
    (hfind : vs.find? (fun w => w.version_number == n) = some v)
    (ht : v.title ≠ "") (hc : v.content ≠ "") :
    ∃ p' : BlogPost,
      rollback_to_version p vs n now
        = some (p', vs ++ [⟨p'.id, maxVersionNumber vs + 1, p'.title, p'.content,
            "Rolled back to version " ++ toString n, p'.word_count⟩])
      ∧ p'.title = v.title ∧ p'.content = v.content := by
  refine ⟨commitDoc p
      (recomputeMetrics { { p with title := v.title } with content := v.content }) now,
    ?_, ?_, ?_⟩
  · unfold rollback_to_version
    simp only [hfind]
    rw [if_pos ht, if_pos hc]
    rfl
  · rcases commitDoc_cases p
        (recomputeMetrics { { p with title := v.title } with content := v.content }) now
      with h | h <;> rw [h] <;> simp [recomputeMetrics_title]
  · rcases commitDoc_cases p
        (recomputeMetrics { { p with title := v.title } with content := v.content }) now
      with h | h <;> rw [h] <;> simp [recomputeMetrics_content]

/-- C2 witness: rolling `basePost` back to version 1 of the one-entry
table `demoVs` restores the snapshot's title and content and appends the
version summarised "Rolled back to version 1". -/
theorem c2_rollback_witness :
    ∃ p' : BlogPost,
      rollback_to_version basePost demoVs 1 9
        = some (p', demoVs ++ [⟨p'.id, maxVersionNumber demoVs + 1, p'.title, p'.content,
            "Rolled back to version " ++ toString 1, p'.word_count⟩])
      ∧ p'.title = demoSnapshot.title ∧ p'.content = demoSnapshot.content :=
  c2_rollback_round_trip basePost demoVs 1 9 demoSnapshot (by decide) (by decide)
    (by decide)

lemma ensure_unique_slug_nil (s : String) : ensure_unique_slug s [] = s := rfl

lemma dash_suffix_ne (s : String) : s ++ "-" ++ toString 1 ≠ s := by
  rw [String.append_assoc, show ("-" ++ toString 1 : String) = "-1" from by decide]
  exact string_append_ne s "-1" (by decide)

lemma ensure_unique_slug_single (s : String) :
    ensure_unique_slug s [s] = s ++ "-1" := by
  have h1 : [s].contains s = true := by simp
  have h2 : [s].contains (s ++ "-" ++ toString 1) = false := by
    simp only [List.contains_cons, List.contains_nil, Bool.or_false]
    exact beq_eq_false_iff_ne.mpr (dash_suffix_ne s)
  show ensureUniqueSlugAux s [s] 2 s 1 = s ++ "-1"
  unfold ensureUniqueSlugAux
  rw [h1]
  simp only [if_true]
  unfold ensureUniqueSlugAux
  rw [h2]
  simp only [Bool.false_eq_true, if_false]
  rw [String.append_assoc, show ("-" ++ toString 1 : String) = "-1" from by decide]

lemma create_blog_post_slug (inp : BlogPostCreate) (user : String)
    (taken : List String) (id : String) (now : Nat) :
    (create_blog_post inp user taken id now).1.slug
      = some (ensure_unique_slug (createRawSlug inp) taken) := by
  show (recomputeMetrics (createBase inp user id
      (ensure_unique_slug (createRawSlug inp) taken) now)).slug = _
  rw [recomputeMetrics_slug]
  rfl

/-- C7 counterexample: creating twice with the same title for one owner
assigns "my-first-post" and then "my-first-post-1" — not the claimed
"my-first-post-2" — because `_ensure_unique_slug` starts its
disambiguation counter at 1. -/
theorem c7_counterexample :
    (create_blog_post c7Create "u1" [] "p1" 0).1.slug = some "my-first-post"
    ∧ (create_blog_post c7Create "u1" ["my-first-post"] "p2" 0).1.slug
        = some "my-first-post-1"
    ∧ (create_blog_post c7Create "u1" ["my-first-post"] "p2" 0).1.slug
        ≠ some "my-first-post-2" := by
  refine ⟨by decide, by decide, by decide⟩

/-- C7 (amended): creating two documents with the same title for the
same owner yields two distinct slugs, the second being the first
suffixed "-1" (the disambiguation suffixes run -1, -2, … until the slug
is unique per owner). -/
theorem c7_slug_disambiguation (inp : BlogPostCreate) (user id1 id2 : String)
    (now1 now2 : Nat) (hslug : inp.slug = none) :
    (create_blog_post inp user [] id1 now1).1.slug = some (generate_slug inp.title)
    ∧ (create_blog_post inp user [generate_slug inp.title] id2 now2).1.slug
        = some (generate_slug inp.title ++ "-1")
    ∧ generate_slug inp.title ++ "-1" ≠ generate_slug inp.title := by
  have hraw : createRawSlug inp = generate_slug inp.title := by
    unfold createRawSlug
    rw [hslug]
  refine ⟨?_, ?_, string_append_ne _ "-1" (by decide)⟩
  · rw [create_blog_post_slug, hraw, ensure_unique_slug_nil]
  · rw [create_blog_post_slug, hraw, ensure_unique_slug_single]

/-- C7 witness: the amended statement at the concrete payload
`c7Create` (title "My First Post", no explicit slug). -/
theorem c7_slug_disambiguation_witness :
    (create_blog_post c7Create "u1" [] "a" 0).1.slug
        = some (generate_slug c7Create.title)
    ∧ (create_blog_post c7Create "u1" [generate_slug c7Create.title] "b" 1).1.slug
        = some (generate_slug c7Create.title ++ "-1")
    ∧ generate_slug c7Create.title ++ "-1" ≠ generate_slug c7Create.title :=
  c7_slug_disambiguation c7Create "u1" "a" "b" 0 1 rfl

lemma updDoc_fields (p : BlogPost) (u : BlogPostUpdate) (taken : List String) :
    (updDoc p u taken).title = (applyUpdateFields p u).title
    ∧ (updDoc p u taken).content = (applyUpdateFields p u).content
    ∧ (updDoc p u taken).meta_description = (applyUpdateFields p u).meta_description
    ∧ (updDoc p u taken).keywords = (applyUpdateFields p u).keywords
    ∧ (updDoc p u taken).status = (applyUpdateFields p u).status
    ∧ (updDoc p u taken).post_type = (applyUpdateFields p u).post_type
    ∧ (updDoc p u taken).tone = (applyUpdateFields p u).tone
    ∧ (updDoc p u taken).featured_image_url = (applyUpdateFields p u).featured_image_url
    ∧ (updDoc p u taken).template_category = (applyUpdateFields p u).template_category := by
  simp only [updDoc]
  refine ⟨?_, ?_, ?_, ?_, ?_, ?_, ?_, ?_, ?_⟩ <;>
    split <;> split <;>
      simp [recomputeMetrics, update_word_count_eq, calculate_reading_time_eq]

lemma updDoc_slug (p : BlogPost) (u : BlogPostUpdate) (taken : List String)
    (h2 : titleChangedGuard u p.title = false) :
    (updDoc p u taken).slug = (applyUpdateFields p u).slug := by
  simp only [updDoc, h2, Bool.false_eq_true, if_false]
  split <;> simp [recomputeMetrics, update_word_count_eq, calculate_reading_time_eq]

/-- C10 counterexample: a patch containing only a new title (its slug
field absent) changes the stored slug — the slug is regenerated from
the new title — so "each document field that is absent from the patch
is unchanged; only fields present with a non-null value are written" is
false as stated. -/
theorem c10_counterexample :
    c10Patch.slug = none
    ∧ (update_blog_post c10Post [] c10Patch none [] 1).1.slug
        = some "completely-different"
    ∧ (update_blog_post c10Post [] c10Patch none [] 1).1.slug ≠ c10Post.slug := by
  refine ⟨rfl, by decide, by decide⟩

/-- C10 (amended): the field loop has partial-update frame semantics:
every patchable content field that is absent — or explicitly null, the
two being indistinguishable in effect — is unchanged by the update, and
every field present with a non-null value is written; the exceptions
the code forces are the slug, which is regenerated whenever the patch
title is truthy and differs from the stored title even though the slug
is absent from the patch (it is unchanged when the title guard does not
fire), and the derived columns word_count / reading_time / seo_score /
updated_at, which may change as consequences of a body change or the
commit. -/
theorem c10_partial_update_frame (p : BlogPost) (vs : List PostVersion)
    (u : BlogPostUpdate) (s : Option String) (taken : List String) (now : Nat) :
    (u.title = none → (update_blog_post p vs u s taken now).1.title = p.title)
    ∧ (∀ t, u.title = some t → (update_blog_post p vs u s taken now).1.title = t)
    ∧ (u.content = none →
        (update_blog_post p vs u s taken now).1.content = p.content)
    ∧ (∀ c, u.content = some c →
        (update_blog_post p vs u s taken now).1.content = c)
    ∧ (u.meta_description = none →
        (update_blog_post p vs u s taken now).1.meta_description
          = p.meta_description)
    ∧ (∀ m, u.meta_description = some m →
        (update_blog_post p vs u s taken now).1.meta_description = some m)
    ∧ (u.keywords = none →
        (update_blog_post p vs u s taken now).1.keywords = p.keywords)
    ∧ (∀ l, u.keywords = some l →
        (update_blog_post p vs u s taken now).1.keywords = some l)
    ∧ (u.status = none →
        (update_blog_post p vs u s taken now).1.status = p.status)
    ∧ (∀ x, u.status = some x →
        (update_blog_post p vs u s taken now).1.status = x)
    ∧ (u.post_type = none →
        (update_blog_post p vs u s taken now).1.post_type = p.post_type)
    ∧ (∀ x, u.post_type = some x →
        (update_blog_post p vs u s taken now).1.post_type = x)
    ∧ (u.tone = none →
        (update_blog_post p vs u s taken now).1.tone = p.tone)
    ∧ (∀ x, u.tone = some x →
        (update_blog_post p vs u s taken now).1.tone = x)
    ∧ (u.featured_image_url = none →
        (update_blog_post p vs u s taken now).1.featured_image_url
          = p.featured_image_url)
    ∧ (∀ x, u.featured_image_url = some x →
        (update_blog_post p vs u s taken now).1.featured_image_url = some x)
    ∧ (u.template_category = none →
        (update_blog_post p vs u s taken now).1.template_category
          = p.template_category)
    ∧ (∀ x, u.template_category = some x →
        (update_blog_post p vs u s taken now).1.template_category = some x)
    ∧ (u.slug = none → titleChangedGuard u p.title = false →
        (update_blog_post p vs u s taken now).1.slug = p.slug) := by
  have hf := updDoc_fields p u taken
  rw [update_blog_post_fst]
  rcases commitDoc_cases p (updDoc p u taken) now with h | h <;> rw [h] <;>
    refine ⟨fun h1 => ?_, fun t h1 => ?_, fun h1 => ?_, fun c h1 => ?_,
      fun h1 => ?_, fun m h1 => ?_, fun h1 => ?_, fun l h1 => ?_,
      fun h1 => ?_, fun x h1 => ?_, fun h1 => ?_, fun x h1 => ?_,
      fun h1 => ?_, fun x h1 => ?_, fun h1 => ?_, fun x h1 => ?_,
      fun h1 => ?_, fun x h1 => ?_, fun h1 h2 => ?_⟩ <;>
    first
      | (simp only [hf.1, hf.2.1, hf.2.2.1, hf.2.2.2.1, hf.2.2.2.2.1,
           hf.2.2.2.2.2.1, hf.2.2.2.2.2.2.1, hf.2.2.2.2.2.2.2.1,
           hf.2.2.2.2.2.2.2.2];
         simp [applyUpdateFields, h1])
      | (show (updDoc p u taken).slug = p.slug;
         rw [updDoc_slug p u taken h2];
         simp [applyUpdateFields, h1])

/-- C10 witness: the amended frame property evaluated on a patch that
sets only the meta description: title, content, slug and the rest stay
as stored, while the meta description is written. -/
theorem c10_partial_update_frame_witness :
    (update_blog_post basePost [] { meta_description := some "m" }
        none [] 4).1.title = basePost.title
    ∧ (update_blog_post basePost [] { meta_description := some "m" }
        none [] 4).1.meta_description = some "m"
    ∧ (update_blog_post basePost [] { meta_description := some "m" }
        none [] 4).1.slug = basePost.slug := by
  have h := c10_partial_update_frame basePost []
    { meta_description := some "m" } none [] 4
  exact ⟨h.1 rfl, h.2.2.2.2.2.1 "m" rfl,
    h.2.2.2.2.2.2.2.2.2.2.2.2.2.2.2.2.2.2 rfl (by decide)⟩

end AiBlog
